import Mathlib

/-!
Verification of the streaming/caching/admission core of `tele-strem`
(src/main.py): the rate limiter (`RateLimiter`), the disk cache
(`CacheManager`, `TelegramStreamer._save_to_cache`), the eviction sweep
(`CacheManager.cleanup_cache`) and the streaming pipeline
(`TelegramStreamer.stream_file`).

The embedding is shallow: Python ints become `ℕ`/`ℤ`, wall-clock times
become `ℚ`, files become explicit state, and the cooperative (asyncio)
interleaving of coroutines becomes an explicit step relation driven by an
adversarial schedule whose steps are the atomic regions between `await`
suspension points of the source.
-/

namespace TeleStream

/-- Configuration values consumed by the core (src/main.py, class `Config`):
`MAX_CONCURRENT_DOWNLOADS`, `RATE_LIMIT_DELAY`, `MAX_CACHE_SIZE`. -/
structure Config where
  maxConcurrentDownloads : ℕ
  rateLimitDelay : ℚ
  maxCacheSize : ℕ
  deriving DecidableEq

/-! ## Fine-grained model of `RateLimiter.acquire_download_slot` (lines 82-93)

The coroutine has exactly two suspension points: the `asyncio.sleep(0.1)`
inside the `while` loop (line 85) and the pacing `asyncio.sleep(...)`
(line 90).  Everything between two suspension points runs atomically under
asyncio.  In particular:

* evaluating the loop condition `active_downloads >= MAX_CONCURRENT_DOWNLOADS`,
  falling through, reading `now = time.time()` and deciding the pacing branch
  is one atomic region;
* if no pacing sleep is needed, the increment `active_downloads += 1` and the
  store `info.last_request = time.time()` happen in that same atomic region;
* if the pacing sleep is taken, the task suspends until
  `last_request + RATE_LIMIT_DELAY` and, on wake, increments and stores the
  timestamp without re-checking the slot condition. -/

/-- Program counter of one task inside `acquire_download_slot`. -/
inductive AcqPC
  | check      -- about to evaluate the `while` condition at line 84
  | sleepLoop  -- suspended in `asyncio.sleep(0.1)` at line 85
  | sleepPace  -- suspended in the pacing sleep at line 90
  | done       -- returned from `acquire_download_slot`
  deriving DecidableEq

/-- One logical task calling `acquire_download_slot`; `wakeAt` is the earliest
time a sleeping task may be resumed (the event loop may resume it later). -/
structure AcqTask where
  pc : AcqPC
  wakeAt : ℚ
  deriving DecidableEq

/-- Shared state of the `RateLimiter` plus the set of tasks inside
`acquire_download_slot`.  `starts` records, in order, the times at which
calls to `acquire_download_slot` returned (fetch starts, i.e. the moments
`info.last_request` was written at line 93). -/
structure AcqState where
  active : ℕ              -- RateLimiter.active_downloads
  lastRequest : ℚ         -- RateLimiter.info.last_request
  tasks : List AcqTask
  starts : List ℚ
  clock : ℚ               -- current wall-clock time (monotone)
  deriving DecidableEq

/-- One scheduler step: resume task `i` at wall-clock time `t`.  A step that
goes back in time, names no task, or wakes a sleeper early is a no-op (the
event loop never does those).  The transitions are the atomic regions of
`acquire_download_slot` described above. -/
def acqStep (cfg : Config) (s : AcqState) (ev : ℕ × ℚ) : AcqState :=
  let i := ev.1
  let t := ev.2
  if t < s.clock then s else
  match s.tasks[i]? with
  | none => s
  | some tk =>
    match tk.pc with
    | .check =>
        if s.active ≥ cfg.maxConcurrentDownloads then
          -- line 85: await asyncio.sleep(0.1)
          { s with tasks := s.tasks.set i ⟨.sleepLoop, t + 1/10⟩, clock := t }
        else if t - s.lastRequest < cfg.rateLimitDelay then
          -- line 90: sleep RATE_LIMIT_DELAY - (now - last_request),
          -- i.e. until last_request + RATE_LIMIT_DELAY
          { s with tasks := s.tasks.set i ⟨.sleepPace, s.lastRequest + cfg.rateLimitDelay⟩,
                   clock := t }
        else
          -- lines 92-93, atomically with the checks above:
          -- active_downloads += 1; info.last_request = time.time()
          { s with active := s.active + 1, lastRequest := t,
                   tasks := s.tasks.set i ⟨.done, t⟩,
                   starts := s.starts ++ [t], clock := t }
    | .sleepLoop =>
        if tk.wakeAt ≤ t then
          -- sleep over: re-evaluate the `while` condition
          { s with tasks := s.tasks.set i ⟨.check, t⟩, clock := t }
        else s
    | .sleepPace =>
        if tk.wakeAt ≤ t then
          -- lines 92-93 run directly after the pacing sleep, with no re-check
          -- of the slot condition
          { s with active := s.active + 1, lastRequest := t,
                   tasks := s.tasks.set i ⟨.done, t⟩,
                   starts := s.starts ++ [t], clock := t }
        else s
    | .done => s

/-- Run a schedule (a list of (task, time) resumptions) from a state. -/
def acqRun (cfg : Config) (s : AcqState) (sched : List (ℕ × ℚ)) : AcqState :=
  sched.foldl (acqStep cfg) s

/-- Scenario for claims about the limiter: one admission slot,
`RATE_LIMIT_DELAY = 1.0` second. -/
def limCfg : Config := ⟨1, 1, 1000⟩

/-- Two tasks enter `acquire_download_slot`, limiter idle since time 0. -/
def limInit : AcqState :=
  ⟨0, 0, [⟨.check, 0⟩, ⟨.check, 0⟩], [], 0⟩

/-- The racing schedule: task 0 runs its checks at t = 0.5 (slot free, pacing
unexpired, so it sleeps until t = 1), task 1 runs its checks at t = 0.6
(slot still free — task 0 has not incremented yet — so it also sleeps until
t = 1), then both wake and increment. -/
def limSched : List (ℕ × ℚ) :=
  [(0, 1/2), (1, 3/5), (0, 1), (1, 11/10)]

/-! ## The disk cache

`CacheManager.get_cache_path` (lines 199-201) maps a cache key to the single
committed path `{cache_path}/{key}.cache`; since key ↦ path is injective we
index the cache directory by the key itself.  A file's contents is its list
of chunks; `none` means no file exists at that path. -/

/-- A chunk of bytes (one element yielded by a stream). -/
abbrev Chunk := List ℕ

/-- The cache directory: for each cache key, the contents of the file at
`get_cache_path key`, if it exists. -/
abbrev CacheDir := ℕ → Option (List Chunk)

/-- `CacheManager.get_cache_key` (lines 195-197): an MD5 digest of
`"{channel_id}_{message_id}_{file_id}"`.  The digest is deterministic and
treated as collision-free (the spec's determinism requirement); we model it
as an injective pairing of the triple. -/
def get_cache_key (channelId messageId fileId : ℕ) : ℕ :=
  Nat.pair channelId (Nat.pair messageId fileId)

/-- `CacheManager.is_cached` (lines 203-206): a key is cached iff a file
exists at its committed path — bare existence, with no notion of a staged or
committed state. -/
def is_cached (dir : CacheDir) (key : ℕ) : Bool :=
  (dir key).isSome

/-- `TelegramStreamer._save_to_cache` (lines 429-438) opens the committed
cache path itself with mode `wb` — creating (or truncating) the file at that
path — and then writes the chunks to it one at a time.
`save_to_cache_aborted dir key chunks n` is the cache directory after the
open and the first `n` writes: the state left behind if the coroutine is
aborted or fails at that point (the `except` clause at line 437 logs the
error and leaves the partial file in place). -/
def save_to_cache_aborted (dir : CacheDir) (key : ℕ) (chunks : List Chunk)
    (n : ℕ) : CacheDir :=
  fun k => if k = key then some (chunks.take n) else dir k

/-- `_save_to_cache` run to completion: the file at the committed path ends
up holding the full chunk list. -/
def save_to_cache_complete (dir : CacheDir) (key : ℕ) (chunks : List Chunk) : CacheDir :=
  save_to_cache_aborted dir key chunks chunks.length

/-! ## The eviction sweep: `CacheManager.cleanup_cache` (lines 229-251) -/

/-- One `*.cache` file as seen by `cleanup_cache`'s scan (lines 234-237): its
identity, `stat.st_mtime`, `stat.st_size`, and whether `aiofiles.os.unlink`
will succeed on it (line 247 vs. the `OSError` branch at line 250) — plus two
ghost fields that no line of the source ever reads or writes: when the entry
was last read (`lastAccess`) and how many `read_cached_file` sessions are
currently open on it (`readers`). -/
structure CacheFileInfo where
  name : ℕ
  mtime : ℚ
  size : ℕ
  unlinkOk : Bool
  lastAccess : ℚ
  readers : ℕ
  deriving DecidableEq

/-- Stable insertion used to model Python's stable `list.sort` on the tuple's
second component (`key=lambda x: x[1]`, line 241): an element is inserted
before the first strictly larger `mtime`, keeping ties in scan order. -/
def insertByMtime (f : CacheFileInfo) : List CacheFileInfo → List CacheFileInfo
  | [] => [f]
  | g :: gs => if f.mtime ≤ g.mtime then f :: g :: gs else g :: insertByMtime f gs

/-- `cache_files.sort(key=lambda x: x[1])` (line 241): sort by `st_mtime`
ascending, stable. -/
def sortByMtime (l : List CacheFileInfo) : List CacheFileInfo :=
  l.foldr insertByMtime []

/-- The deletion loop of `cleanup_cache` (lines 243-251) over the sorted file
list: stop as soon as the running total is at most 80% of `MAX_CACHE_SIZE`
(Python compares `cache_size <= MAX_CACHE_SIZE * 0.8`; we use the exact
rational form `5 * sz ≤ 4 * max`); otherwise try to unlink the next file —
on success subtract its size from the running total, on `OSError` skip it —
and continue with the rest.  Returns the names deleted, in deletion order,
and the final running total. -/
def cleanupLoop (maxCacheSize : ℕ) : List CacheFileInfo → ℤ → List ℕ × ℤ
  | [], sz => ([], sz)
  | f :: fs, sz =>
    if 5 * sz ≤ 4 * (maxCacheSize : ℤ) then ([], sz)
    else if f.unlinkOk then
      let r := cleanupLoop maxCacheSize fs (sz - (f.size : ℤ))
      (f.name :: r.1, r.2)
    else cleanupLoop maxCacheSize fs sz

/-- `CacheManager.cleanup_cache` (lines 229-251): total the sizes of all
`*.cache` files; if the total exceeds `MAX_CACHE_SIZE`, sort by `st_mtime`
ascending and run the deletion loop.  Returns the names deleted (in
deletion order) and the surviving files. -/
def cleanup_cache (maxCacheSize : ℕ) (files : List CacheFileInfo) :
    List ℕ × List CacheFileInfo :=
  let cacheSize : ℤ := ((files.map (·.size)).sum : ℕ)
  if (maxCacheSize : ℤ) < cacheSize then
    let deleted := (cleanupLoop maxCacheSize (sortByMtime files) cacheSize).1
    (deleted, files.filter (fun f => ! deleted.contains f.name))
  else ([], files)

/-- Replace the ghost `readers` field of every file (used to state that the
sweep's behaviour is independent of active read sessions). -/
def setReaders (g : CacheFileInfo → ℕ) (f : CacheFileInfo) : CacheFileInfo :=
  { f with readers := g f }

/-! ## Sequential model of one `TelegramStreamer.stream_file` run (387-427)

`stream_file` is an async generator; a single run of it is sequential, so we
embed it as a function of the shared state it reads at its suspension points.
Cancellation (a client disconnect closing the generator) is a parameter
naming the suspension point at which the `GeneratorExit` is delivered; the
`finally` block at lines 426-427 is the function `finallyRelease` below,
applied on every exit path. -/

/-- Media attached to a message (`message.document or message.video`):
`file_id`, `file_size`, and the chunks `client.stream_media` will yield. -/
structure MsgMedia where
  fileId : ℕ
  fileSize : ℕ
  chunks : List Chunk
  deriving DecidableEq

/-- The remote source as one `stream_file` run sees it: `none` when
`client.get_messages` raises (remote unreachable or message gone),
`some none` when the message exists but carries no `document`/`video`,
`some (some m)` when it carries media `m`. -/
structure StreamEnv where
  channelId : ℕ
  messageId : ℕ
  message : Option (Option MsgMedia)
  deriving DecidableEq

/-- The shared `RateLimiter` fields that `stream_file` reads and writes. -/
structure RL where
  active : ℕ
  lastRequest : ℚ
  deriving DecidableEq

/-- Observable events of one `stream_file` run, in program order. -/
inductive StreamEv
  | acquire                 -- acquire_download_slot returned (line 390)
  | getMessages             -- client.get_messages returned (line 392)
  | cacheCheck (hit : Bool) -- cache_manager.is_cached consulted (line 400)
  | cacheRead               -- read_cached_file loop entered (line 402)
  | fetch                   -- client.stream_media invoked (line 410)
  | yieldChunk (c : Chunk)  -- a chunk yielded to the client
  | saveTask                -- asyncio.create_task(_save_to_cache ...) (line 421)
  | release                 -- release_download_slot ran (finally, line 427)
  deriving DecidableEq

/-- Suspension points of one `stream_file` run at which a client disconnect
(cancellation of the async generator) can take effect; cancellation at a
site models the `GeneratorExit` delivered at that site's first suspension. -/
inductive CancelSite
  | atAcquire      -- while suspended inside acquire_download_slot
  | atGetMessages  -- while suspended in client.get_messages
  | atCacheRead    -- during the read_cached_file chunk loop
  | atFetch        -- during the stream_media chunk loop
  deriving DecidableEq

/-- How a run can fail. -/
inductive StreamErr
  | upstream   -- client.get_messages raised
  | notFound   -- HTTPException(404): no document/video (lines 393-394)
  | cancelled  -- GeneratorExit: client disconnected
  deriving DecidableEq

/-- Outcome of one `stream_file` run: its event trace, how it ended, the
limiter state, the cache directory, and the chunks delivered to the client. -/
structure StreamResult where
  events : List StreamEv
  err : Option StreamErr
  rl : RL
  cache : CacheDir
  client : List Chunk

/-- Effect of `acquire_download_slot` (lines 82-93) on the limiter when the
calling task is alone in it and `active_downloads < MAX_CONCURRENT_DOWNLOADS`
(so the `while` loop at line 84 falls through): if the pacing interval has
not elapsed, the task sleeps until `last_request + RATE_LIMIT_DELAY` and
records that as the new `last_request`; otherwise it records the current
time.  Either way `active_downloads` is incremented.  Returns the new
limiter state and the recorded time. -/
def acquireSlot (cfg : Config) (rl : RL) (now : ℚ) : RL × ℚ :=
  let t := if now - rl.lastRequest < cfg.rateLimitDelay
           then rl.lastRequest + cfg.rateLimitDelay else now
  (⟨rl.active + 1, t⟩, t)

/-- `release_download_slot` (lines 95-97):
`active_downloads = max(0, active_downloads - 1)`; ℕ subtraction is already
floored at zero. -/
def releaseSlot (rl : RL) : RL :=
  ⟨rl.active - 1, rl.lastRequest⟩

/-- The `finally` block of `stream_file` (lines 426-427), which runs on every
exit path of the generator — normal completion, exception, or cancellation —
and calls `release_download_slot` exactly once. -/
def finallyRelease (evs : List StreamEv) (e : Option StreamErr) (rl : RL)
    (dir : CacheDir) (client : List Chunk) : StreamResult :=
  ⟨evs ++ [.release], e, releaseSlot rl, dir, client⟩

/-- `TelegramStreamer.stream_file` (lines 387-427), one run.  `use_cache` is
the keyword argument, `rl`/`dir` the shared limiter and cache directory at
entry, `now` the wall-clock time at entry, and `cancel` the suspension point
(if any) at which the client disconnects.  The background `_save_to_cache`
task spawned at line 421 is modelled as completing its write. -/
def stream_file (cfg : Config) (env : StreamEnv) (use_cache : Bool) (rl : RL)
    (dir : CacheDir) (now : ℚ) (cancel : Option CancelSite) : StreamResult :=
  if cancel = some .atAcquire then
    -- cancelled while suspended inside acquire_download_slot: the slot was
    -- never taken, but the finally block still runs release_download_slot
    finallyRelease [] (some .cancelled) rl dir []
  else
    let rl₁ := (acquireSlot cfg rl now).1
    if cancel = some .atGetMessages then
      finallyRelease [.acquire] (some .cancelled) rl₁ dir []
    else
      match env.message with
      | none => finallyRelease [.acquire] (some .upstream) rl₁ dir []
      | some none =>
          finallyRelease [.acquire, .getMessages] (some .notFound) rl₁ dir []
      | some (some media) =>
        let key := get_cache_key env.channelId env.messageId media.fileId
        if use_cache && is_cached dir key then
          if cancel = some .atCacheRead then
            finallyRelease [.acquire, .getMessages, .cacheCheck true, .cacheRead]
              (some .cancelled) rl₁ dir []
          else
            let content := (dir key).getD []
            finallyRelease
              ([.acquire, .getMessages, .cacheCheck true, .cacheRead]
                ++ content.map .yieldChunk)
              none rl₁ dir content
        else
          if cancel = some .atFetch then
            -- cancelled during the chunk loop: the buffered chunk list is
            -- dropped and create_task(_save_to_cache) at line 421 is never
            -- reached, so the cache directory is untouched
            finallyRelease [.acquire, .getMessages, .cacheCheck false, .fetch]
              (some .cancelled) rl₁ dir []
          else if use_cache ∧ media.fileSize < cfg.maxCacheSize / 2 then
            finallyRelease
              ([.acquire, .getMessages, .cacheCheck false, .fetch]
                ++ media.chunks.map .yieldChunk ++ [.saveTask])
              none rl₁
              (save_to_cache_complete dir key media.chunks) media.chunks
          else
            finallyRelease
              ([.acquire, .getMessages, .cacheCheck false, .fetch]
                ++ media.chunks.map .yieldChunk)
              none rl₁ dir media.chunks

/-- Number of occurrences of an event in a trace. -/
def countEv (e : StreamEv) (l : List StreamEv) : ℕ :=
  (l.filter (fun x => decide (x = e))).length

/-! ## Interleaved model of concurrent `stream_file` runs for one key

Program counters are the atomic regions between the suspension points of
`stream_file` and `_save_to_cache` for requests sharing one uncached key,
under a configuration in which `acquire_download_slot` does not suspend
(`active_downloads` stays below `MAX_CONCURRENT_DOWNLOADS` and
`RATE_LIMIT_DELAY = 0`, so lines 84-90 fall straight through): the
suspensions are `get_messages`, the chunk loops, and the background save
task.  Note that `is_cached` (line 400) contains no `await` that yields, so
the cache check, the branch, and (on a miss) the `stream_media` call at line
410 form one atomic region. -/

/-- Position of one request-handling task. -/
inductive ReqPC
  | start      -- about to run: acquires the slot, suspends in get_messages
  | resumed    -- get_messages returned; the next step runs the atomic
               -- region: media check, cache key, is_cached check, branch,
               -- and (on a miss) the call to client.stream_media
  | serving    -- inside the read_cached_file loop (cache-hit path)
  | streaming  -- inside the stream_media chunk loop (miss path)
  | saving     -- _save_to_cache background task spawned and running
  | done
  deriving DecidableEq

/-- Shared state: whether the file at the key's cache path exists yet, how
many times `client.stream_media` has been invoked for the key, and each
task's position. -/
structure DedupState where
  cached : Bool
  fetchCount : ℕ
  tasks : List ReqPC
  deriving DecidableEq

/-- One scheduler step: resume task `i` for one atomic region. -/
def dedupStep (s : DedupState) (i : ℕ) : DedupState :=
  match s.tasks[i]? with
  | none => s
  | some pc =>
    match pc with
    | .start => { s with tasks := s.tasks.set i .resumed }
    | .resumed =>
        if s.cached then { s with tasks := s.tasks.set i .serving }
        else { s with fetchCount := s.fetchCount + 1,
                      tasks := s.tasks.set i .streaming }
    | .serving => { s with tasks := s.tasks.set i .done }
    | .streaming => { s with tasks := s.tasks.set i .saving }
    | .saving => { s with cached := true, tasks := s.tasks.set i .done }
    | .done => s

/-- Run a schedule of task resumptions. -/
def dedupRun (s : DedupState) (sched : List ℕ) : DedupState :=
  sched.foldl dedupStep s

/-- `k` requests for the same key, none having started, key uncached. -/
def dedupInit (k : ℕ) : DedupState :=
  ⟨false, 0, List.replicate k .start⟩

/-- The burst schedule: all `k` requests arrive together — each acquires its
slot and suspends in `get_messages`, then each resumes and runs its cache
check and branch, then each finishes its chunk loop and spawns its save
task. -/
def burstSched (k : ℕ) : List ℕ :=
  List.range k ++ List.range k ++ List.range k

/-! ## Concrete scenarios used by the claims -/

/-- An empty cache directory. -/
def emptyDir : CacheDir := fun _ => none

/-- Limiter configuration for the cache-hit scenario: three slots, one-second
pacing, small cache budget. -/
def hitCfg : Config := ⟨3, 1, 1000⟩

/-- Media of the cache-hit scenario: `file_id` 7, declared size 100. -/
def hitMedia : MsgMedia := ⟨7, 100, [[1, 2], [3]]⟩

/-- The cache-hit request: channel 4, message 6, media present. -/
def hitEnv : StreamEnv := ⟨4, 6, some (some hitMedia)⟩

/-- The cache key of the cache-hit scenario. -/
def hitKey : ℕ := get_cache_key 4 6 7

/-- A cache directory in which the scenario's key is already cached. -/
def hitDir : CacheDir := fun k => if k = hitKey then some [[9, 9], [8]] else none

/-- One cache-hit run: limiter idle since t = 0, request arrives at t = 5
(pacing long expired), no cancellation. -/
def hitRun : StreamResult := stream_file hitCfg hitEnv true ⟨0, 0⟩ hitDir 5 none

/-- Configuration for the cache-admission scenario: `MAX_CACHE_SIZE = 10`,
so the caching threshold `MAX_CACHE_SIZE // 2` is 5. -/
def admCfg : Config := ⟨3, 1, 10⟩

/-- Media exactly at the threshold: declared size 5 = 10 // 2. -/
def admMediaAt : MsgMedia := ⟨7, 5, [[1], [2]]⟩

/-- Media just below the threshold: declared size 4. -/
def admMediaBelow : MsgMedia := ⟨7, 4, [[1], [2]]⟩

/-- Request carrying the at-threshold media. -/
def admEnvAt : StreamEnv := ⟨4, 6, some (some admMediaAt)⟩

/-- Request carrying the below-threshold media. -/
def admEnvBelow : StreamEnv := ⟨4, 6, some (some admMediaBelow)⟩

/-- A request whose `get_messages` raises (remote unreachable), aimed at the
same channel/message as the cached scenario. -/
def envNoMsg : StreamEnv := ⟨4, 6, none⟩

/-- Eviction scenario for the access-order question: the file modified
earliest (name 0, mtime 1) was read most recently (lastAccess 10); the file
modified later (name 1, mtime 2) has the oldest access time (lastAccess 0).
Both deletable, 600 bytes each, budget 1000. -/
def evOldMtime : CacheFileInfo := ⟨0, 1, 600, true, 10, 0⟩

/-- Companion file of the access-order scenario. -/
def evNewMtime : CacheFileInfo := ⟨1, 2, 600, true, 0, 0⟩

/-- Convergence scenario of the spec: three 400-byte entries, budget 1000. -/
def ev400a : CacheFileInfo := ⟨0, 1, 400, true, 1, 0⟩

/-- Second 400-byte entry. -/
def ev400b : CacheFileInfo := ⟨1, 2, 400, true, 2, 0⟩

/-- Third 400-byte entry. -/
def ev400c : CacheFileInfo := ⟨2, 3, 400, true, 3, 0⟩

/-- Deletion-failure scenario: the oldest file's unlink raises `OSError`. -/
def evBadUnlink : CacheFileInfo := ⟨0, 1, 600, false, 0, 0⟩

/-- Companion deletable file of the deletion-failure scenario. -/
def evGoodUnlink : CacheFileInfo := ⟨1, 2, 600, true, 0, 0⟩

/-- Referenced-entry scenario: the oldest entry has one active
`read_cached_file` session (`readers = 1`). -/
def evBeingRead : CacheFileInfo := ⟨0, 1, 600, true, 0, 1⟩

/-- Companion idle entry of the referenced-entry scenario. -/
def evIdle : CacheFileInfo := ⟨1, 2, 600, true, 0, 0⟩

/-! ## Helper lemmas -/

theorem countEv_append (e : StreamEv) (l₁ l₂ : List StreamEv) :
    countEv e (l₁ ++ l₂) = countEv e l₁ + countEv e l₂ := by
  simp [countEv, List.filter_append]

theorem countEv_map_yieldChunk_release (l : List Chunk) :
    countEv .release (l.map .yieldChunk) = 0 := by
  induction l with
  | nil => rfl
  | cons c cs ih => simp [countEv] at ih ⊢

theorem filter_release_map_yieldChunk (l : List Chunk) :
    (l.map StreamEv.yieldChunk).filter
      (fun x => decide (x = StreamEv.release)) = [] := by
  induction l with
  | nil => rfl
  | cons c cs ih => simp [ih]

/-! ## Claims about the rate limiter (C1, C3) -/

/-- C1: the claimed admission bound — `active_downloads` never exceeding
`MAX_CONCURRENT_DOWNLOADS` under every cooperative interleaving of the
suspension points inside `acquire_download_slot` — fails on the code.  With
`MAX_CONCURRENT_DOWNLOADS = 1` and `RATE_LIMIT_DELAY = 1.0`, two tasks both
pass the slot check at line 84 while the slot is still free, both enter the
pacing sleep at line 90 (which suspends between the check and the increment),
and on waking both increment: `active_downloads` reaches 2 > 1. -/
theorem C1_admission_bound_violated :
    (acqRun limCfg limInit limSched).active = 2 ∧
    limCfg.maxConcurrentDownloads = 1 := by
  norm_num [acqRun, acqStep, limCfg, limInit, limSched]

/-- C3: the claimed pacing — at least `RATE_LIMIT_DELAY` between any two
consecutive fetch starts — fails on the code under the same interleaving as
C1: both tasks read `info.last_request = 0` before either writes it, both
wake from the pacing sleep at time 1, and the two recorded fetch starts are
at times 1 and 1.1, only 0.1 < 1.0 apart. -/
theorem C3_pacing_violated :
    (acqRun limCfg limInit limSched).starts = [1, 11/10] ∧
    (11/10 : ℚ) - 1 < limCfg.rateLimitDelay := by
  norm_num [acqRun, acqStep, limCfg, limInit, limSched]

/-! ## Claim about cache-write visibility (C2) -/

/-- C2: the claimed write-then-publish atomicity fails on the code.
`_save_to_cache` opens the committed path itself, so a write of a two-chunk
object aborted after one chunk leaves a file holding only the first chunk at
the committed path, and `is_cached` reports the key as cached; even a write
aborted after zero chunks (the `open` alone) makes the key cached. -/
theorem C2_partial_write_visible :
    is_cached (save_to_cache_aborted emptyDir 5 [[1, 2], [3, 4]] 1) 5 = true ∧
    save_to_cache_aborted emptyDir 5 [[1, 2], [3, 4]] 1 5 = some [[1, 2]] ∧
    is_cached (save_to_cache_aborted emptyDir 5 [[1, 2], [3, 4]] 0) 5 = true := by
  decide

/-! ## Claims about deduplication (C4) -/

set_option maxRecDepth 4000 in
/-- C4 counterexample: two concurrent requests for the same uncached key —
both acquire slots, both suspend in `get_messages`, then each resumes and
runs its cache check while the key is still uncached — invoke
`client.stream_media` twice, not once, and afterwards both of their
`_save_to_cache` tasks are active at the same time. -/
theorem C4_counterexample :
    (dedupRun (dedupInit 2) (burstSched 2)).fetchCount = 2 ∧
    (dedupRun (dedupInit 2) (burstSched 2)).fetchCount ≠ 1 ∧
    (dedupRun (dedupInit 2) (burstSched 2)).tasks.count .saving = 2 := by
  decide

set_option maxRecDepth 40000 in
/-- C4 amended: there is no deduplication — `K` concurrent requests for the
same uncached key each invoke their own remote fetch, `K` fetches in total,
for `K` ∈ {2, 5, 50} (the spec's test values). -/
theorem C4_no_dedup :
    (dedupRun (dedupInit 2) (burstSched 2)).fetchCount = 2 ∧
    (dedupRun (dedupInit 5) (burstSched 5)).fetchCount = 5 ∧
    (dedupRun (dedupInit 50) (burstSched 50)).fetchCount = 50 := by
  decide

/-! ## Claims about the streaming pipeline (C5, C8, C9, C10) -/

/-- C9: on every exit path of a `stream_file` run — normal completion, any
raised error, and cancellation at any suspension point — the `finally` block
at lines 426-427 releases the admission slot exactly once; and a
cancellation during the fetch loop leaves the cache directory untouched (no
cache file is created for the key) and leaves the shared slot count equal to
its value from before the request began. -/
theorem C9_release_exactly_once (cfg : Config) (env : StreamEnv) (uc : Bool)
    (rl : RL) (dir : CacheDir) (now : ℚ) (cancel : Option CancelSite) :
    countEv .release (stream_file cfg env uc rl dir now cancel).events = 1 ∧
    (stream_file cfg env uc rl dir now (some .atFetch)).rl.active = rl.active ∧
    (stream_file cfg env uc rl dir now (some .atFetch)).cache = dir := by
  obtain ⟨cid, mid, msg⟩ := env
  refine ⟨?_, ?_, ?_⟩
  · unfold stream_file
    rcases cancel with _ | c
    · rcases msg with _ | _ | media <;> dsimp only <;> split_ifs <;>
        simp [finallyRelease, countEv, List.filter_append,
          filter_release_map_yieldChunk]
    · rcases c <;> rcases msg with _ | _ | media <;> dsimp only <;> split_ifs <;>
        simp [finallyRelease, countEv, List.filter_append,
          filter_release_map_yieldChunk]
  · unfold stream_file
    rcases msg with _ | _ | media <;> dsimp only <;> split_ifs <;>
      simp_all [finallyRelease, releaseSlot, acquireSlot]
  · unfold stream_file
    rcases msg with _ | _ | media <;> dsimp only <;> split_ifs <;>
      simp_all [finallyRelease, releaseSlot, acquireSlot]

/-- C5 counterexample: a run whose object is already cached still acquires
the admission slot before the cache lookup — the trace contains the acquire
event — and permanently advances the shared pacing timestamp from 0 to 5:
the cached read counted against both the slot limit and the pacing cadence,
contradicting the claim that cache hits skip admission entirely. -/
theorem C5_counterexample :
    StreamEv.acquire ∈ hitRun.events ∧
    StreamEv.cacheCheck true ∈ hitRun.events ∧
    hitRun.rl.lastRequest = 5 ∧
    hitRun.err = none := by
  norm_num [hitRun, stream_file, hitCfg, hitEnv, hitDir, hitMedia, hitKey,
    acquireSlot, releaseSlot, finallyRelease, is_cached, get_cache_key]
  refine ⟨?_, ?_, ?_, ?_⟩ <;> simp

/-- C5 amended: a run whose object is already cached first acquires the
admission slot — incrementing `active_downloads` and moving the shared
pacing timestamp to the acquisition time — and only then consults the cache,
serves the bytes from disk, and releases the slot at the end. -/
theorem C5_cache_hit_still_admitted (cfg : Config) (env : StreamEnv)
    (m : MsgMedia) (rl : RL) (dir : CacheDir) (now : ℚ)
    (hm : env.message = some (some m))
    (hc : is_cached dir (get_cache_key env.channelId env.messageId m.fileId) = true) :
    (stream_file cfg env true rl dir now none).events
      = [.acquire, .getMessages, .cacheCheck true, .cacheRead]
        ++ ((dir (get_cache_key env.channelId env.messageId m.fileId)).getD
            []).map .yieldChunk
        ++ [.release] ∧
    (stream_file cfg env true rl dir now none).rl
      = ⟨rl.active, (acquireSlot cfg rl now).2⟩ ∧
    (stream_file cfg env true rl dir now none).client
      = (dir (get_cache_key env.channelId env.messageId m.fileId)).getD [] := by
  obtain ⟨cid, mid, msg⟩ := env
  dsimp only at hm hc
  subst hm
  unfold stream_file
  simp [hc, finallyRelease, releaseSlot, acquireSlot]

/-- C5 witness: the amended statement at the concrete cache-hit scenario. -/
theorem C5_cache_hit_still_admitted_witness :
    hitRun.events
      = [.acquire, .getMessages, .cacheCheck true, .cacheRead]
        ++ ([[9, 9], [8]] : List Chunk).map .yieldChunk ++ [.release] ∧
    hitRun.rl = ⟨0, 5⟩ ∧
    hitRun.client = [[9, 9], [8]] := by
  have h := C5_cache_hit_still_admitted hitCfg hitEnv hitMedia ⟨0, 0⟩ hitDir 5
    rfl (by norm_num [is_cached, hitDir, hitKey, hitEnv, hitMedia, get_cache_key])
  simp only [hitEnv, hitMedia] at h
  norm_num [hitRun, hitDir, hitKey, hitEnv, hitMedia, get_cache_key,
    acquireSlot, hitCfg] at h ⊢
  exact h

/-- C8: the cache-admission policy of lines 414-424 — an object whose
declared size is at least `MAX_CACHE_SIZE // 2` (ℕ division here is exactly
Python's `//`) is never written to the cache: on every path of the run the
cache directory is unchanged and no save task is spawned; while on a cache
miss an object below the threshold is teed to both the client and the cache
writer, the full chunk list landing at the key's committed path. -/
theorem C8_cache_admission_policy (cfg : Config) (env : StreamEnv)
    (m : MsgMedia) (uc : Bool) (rl : RL) (dir : CacheDir) (now : ℚ)
    (cancel : Option CancelSite)
    (hm : env.message = some (some m)) :
    (cfg.maxCacheSize / 2 ≤ m.fileSize →
      (stream_file cfg env uc rl dir now cancel).cache = dir ∧
      StreamEv.saveTask ∉ (stream_file cfg env uc rl dir now cancel).events) ∧
    (m.fileSize < cfg.maxCacheSize / 2 →
     is_cached dir (get_cache_key env.channelId env.messageId m.fileId) = false →
      (stream_file cfg env true rl dir now none).client = m.chunks ∧
      (stream_file cfg env true rl dir now none).cache
          (get_cache_key env.channelId env.messageId m.fileId) = some m.chunks ∧
      StreamEv.saveTask ∈ (stream_file cfg env true rl dir now none).events) := by
  obtain ⟨cid, mid, msg⟩ := env
  dsimp only at hm
  subst hm
  constructor
  · intro hbig
    unfold stream_file
    rcases cancel with _ | c
    · dsimp only
      split_ifs with h1 h2 <;>
        simp_all [finallyRelease] <;> omega
    · rcases c <;> dsimp only <;> split_ifs <;>
        simp_all [finallyRelease] <;> omega
  · intro hsmall hmiss
    unfold stream_file
    simp [hmiss, hsmall, finallyRelease, save_to_cache_complete,
      save_to_cache_aborted, List.take_length]

/-- C8 witness: with `MAX_CACHE_SIZE = 10` (threshold 5), the size-5 object
is not written to the cache while the size-4 object is teed to the client
and lands in full at its key's committed path. -/
theorem C8_cache_admission_policy_witness :
    ((stream_file admCfg admEnvAt true ⟨0, 0⟩ emptyDir 5 none).cache = emptyDir ∧
      StreamEv.saveTask ∉
        (stream_file admCfg admEnvAt true ⟨0, 0⟩ emptyDir 5 none).events) ∧
    ((stream_file admCfg admEnvBelow true ⟨0, 0⟩ emptyDir 5 none).client
        = admMediaBelow.chunks ∧
      (stream_file admCfg admEnvBelow true ⟨0, 0⟩ emptyDir 5 none).cache
          (get_cache_key admEnvBelow.channelId admEnvBelow.messageId
            admMediaBelow.fileId)
        = some admMediaBelow.chunks ∧
      StreamEv.saveTask ∈
        (stream_file admCfg admEnvBelow true ⟨0, 0⟩ emptyDir 5 none).events) :=
  ⟨(C8_cache_admission_policy admCfg admEnvAt admMediaAt true ⟨0, 0⟩ emptyDir 5
      none rfl).1 (by norm_num [admCfg, admMediaAt]),
   (C8_cache_admission_policy admCfg admEnvBelow admMediaBelow true ⟨0, 0⟩
      emptyDir 5 none rfl).2 (by norm_num [admCfg, admMediaBelow]) (by rfl)⟩

/-- C10: every `stream_file` run calls the remote metadata lookup
(`client.get_messages`, line 392) before the cache is ever consulted — a
cache check in the trace implies the lookup succeeded and returned media —
and a (non-cancelled) run fails when the lookup raises or when the message
carries no media, delivering no bytes, even when the object is fully
cached on disk. -/
theorem C10_lookup_before_cache (cfg : Config) (env : StreamEnv) (uc : Bool)
    (rl : RL) (dir : CacheDir) (now : ℚ) (cancel : Option CancelSite) :
    (env.message = none →
      (stream_file cfg env uc rl dir now none).err = some .upstream ∧
      (stream_file cfg env uc rl dir now none).client = []) ∧
    (env.message = some none →
      (stream_file cfg env uc rl dir now none).err = some .notFound ∧
      (stream_file cfg env uc rl dir now none).client = []) ∧
    (∀ hit : Bool,
      StreamEv.cacheCheck hit ∈ (stream_file cfg env uc rl dir now cancel).events →
      ∃ m : MsgMedia, env.message = some (some m)) := by
  obtain ⟨cid, mid, msg⟩ := env
  refine ⟨?_, ?_, ?_⟩
  · intro h
    dsimp only at h
    subst h
    unfold stream_file
    simp [finallyRelease]
  · intro h
    dsimp only at h
    subst h
    unfold stream_file
    simp [finallyRelease]
  · intro hit hmem
    rcases msg with _ | _ | media
    · unfold stream_file at hmem
      rcases cancel with _ | c
      · simp [finallyRelease] at hmem
      · rcases c <;> simp [finallyRelease] at hmem
    · unfold stream_file at hmem
      rcases cancel with _ | c
      · simp [finallyRelease] at hmem
      · rcases c <;> simp [finallyRelease] at hmem
    · exact ⟨media, rfl⟩

/-- C10 witness: with the object fully cached but `get_messages` raising,
the run fails with the upstream error and serves nothing; and in the
cache-hit run the cache check in the trace certifies that the lookup
returned media. -/
theorem C10_lookup_before_cache_witness :
    ((stream_file hitCfg envNoMsg true ⟨0, 0⟩ hitDir 5 none).err
        = some .upstream ∧
      (stream_file hitCfg envNoMsg true ⟨0, 0⟩ hitDir 5 none).client = []) ∧
    (∃ m : MsgMedia, hitEnv.message = some (some m)) :=
  ⟨(C10_lookup_before_cache hitCfg envNoMsg true ⟨0, 0⟩ hitDir 5 none).1 rfl,
   (C10_lookup_before_cache hitCfg hitEnv true ⟨0, 0⟩ hitDir 5 none).2.2 true
     (by
       norm_num [stream_file, hitCfg, hitEnv, hitDir, hitMedia, hitKey,
         acquireSlot, releaseSlot, finallyRelease, is_cached, get_cache_key]
       simp)⟩

/-! ## Claims about the eviction sweep (C6, C7) -/

theorem cleanupLoop_stop_or_all (mx : ℕ) (l : List CacheFileInfo) :
    ∀ sz : ℤ, 5 * (cleanupLoop mx l sz).2 ≤ 4 * (mx : ℤ) ∨
      ∀ f ∈ l, f.unlinkOk = true → f.name ∈ (cleanupLoop mx l sz).1 := by
  induction l with
  | nil => intro sz; right; intro f hf; cases hf
  | cons f fs ih =>
    intro sz
    by_cases hstop : 5 * sz ≤ 4 * (mx : ℤ)
    · left; simp [cleanupLoop, hstop]
    · by_cases hok : f.unlinkOk
      · rcases ih (sz - (f.size : ℤ)) with h | h
        · left; simp [cleanupLoop, hstop, hok, h]
        · right
          intro g hg hgok
          simp only [cleanupLoop, if_neg hstop, if_pos hok]
          rcases List.mem_cons.1 hg with rfl | hgfs
          · exact List.mem_cons_self _ _
          · exact List.mem_cons_of_mem _ (h g hgfs hgok)
      · rcases ih sz with h | h
        · left; simp [cleanupLoop, hstop, hok, h]
        · right
          intro g hg hgok
          simp only [cleanupLoop, if_neg hstop, if_neg hok]
          rcases List.mem_cons.1 hg with rfl | hgfs
          · exact absurd hgok hok
          · exact h g hgfs hgok

theorem cleanupLoop_deleted_take (mx : ℕ) (l : List CacheFileInfo) :
    ∀ sz : ℤ, ∃ k, (cleanupLoop mx l sz).1
      = ((l.take k).filter (fun f => f.unlinkOk)).map (fun f => f.name) := by
  induction l with
  | nil => intro sz; exact ⟨0, by simp [cleanupLoop]⟩
  | cons f fs ih =>
    intro sz
    by_cases hstop : 5 * sz ≤ 4 * (mx : ℤ)
    · exact ⟨0, by simp [cleanupLoop, hstop]⟩
    · by_cases hok : f.unlinkOk
      · obtain ⟨k, hk⟩ := ih (sz - (f.size : ℤ))
        exact ⟨k + 1, by simp [cleanupLoop, hstop, hok, hk]⟩
      · obtain ⟨k, hk⟩ := ih sz
        exact ⟨k + 1, by simp [cleanupLoop, hstop, hok, hk]⟩

/-- C6 counterexample: the sweep orders deletions by `st_mtime`, not by
last-accessed time.  With the budget exceeded, the entry written earliest
(name 0, mtime 1) but read most recently (lastAccess 10) is deleted first,
while the entry with the oldest access time (name 1, lastAccess 0)
survives — the opposite of ascending-lastAccessedAt order. -/
theorem C6_counterexample :
    (cleanup_cache 1000 [evOldMtime, evNewMtime]).1 = [0] ∧
    evNewMtime.lastAccess < evOldMtime.lastAccess := by decide

/-- C6 amended: a sweep starting with total ≤ `MAX_CACHE_SIZE` deletes
nothing; in general the final running total is at most 80% of the budget
unless every unlink-successful file was deleted; the deleted entries are, in
deletion order, the unlink-successful members of an initial segment of the
files sorted by st_mtime ascending (oldest-modified first); on the spec's
convergence scenario (sizes 400/400/400, budget 1000) exactly the
oldest-modified entry is deleted, 800 bytes survive, and a second sweep
deletes nothing; and a failed deletion is skipped without aborting the
sweep. -/
theorem C6_eviction_sweep :
    (∀ (mx : ℕ) (files : List CacheFileInfo),
       (files.map (fun f => f.size)).sum ≤ mx →
       cleanup_cache mx files = ([], files)) ∧
    (∀ (mx : ℕ) (l : List CacheFileInfo) (sz : ℤ),
       5 * (cleanupLoop mx l sz).2 ≤ 4 * (mx : ℤ) ∨
       ∀ f ∈ l, f.unlinkOk = true → f.name ∈ (cleanupLoop mx l sz).1) ∧
    (∀ (mx : ℕ) (files : List CacheFileInfo),
       ∃ k, (cleanup_cache mx files).1
         = (((sortByMtime files).take k).filter
             (fun f => f.unlinkOk)).map (fun f => f.name)) ∧
    ((cleanup_cache 1000 [ev400a, ev400b, ev400c]).1 = [0] ∧
      ((cleanup_cache 1000 [ev400a, ev400b, ev400c]).2.map (fun f => f.size)).sum
        = 800 ∧
      cleanup_cache 1000 ((cleanup_cache 1000 [ev400a, ev400b, ev400c]).2)
        = ([], (cleanup_cache 1000 [ev400a, ev400b, ev400c]).2)) ∧
    (cleanup_cache 1000 [evBadUnlink, evGoodUnlink]).1 = [1] := by
  refine ⟨?_, cleanupLoop_stop_or_all, ?_, by decide, by decide⟩
  · intro mx files h
    simp only [cleanup_cache]
    rw [if_neg]
    exact not_lt.mpr (by exact_mod_cast h)
  · intro mx files
    simp only [cleanup_cache]
    by_cases hover : (mx : ℤ) < (((files.map (fun f => f.size)).sum : ℕ) : ℤ)
    · rw [if_pos hover]
      exact cleanupLoop_deleted_take mx (sortByMtime files) _
    · rw [if_neg hover]
      exact ⟨0, by simp⟩

/-- C6 witness: the no-deletion conjunct at a concrete under-budget state. -/
theorem C6_eviction_sweep_witness :
    cleanup_cache 1000 [ev400b, ev400c] = ([], [ev400b, ev400c]) :=
  C6_eviction_sweep.1 1000 [ev400b, ev400c] (by decide)

theorem insertByMtime_map_setReaders (g : CacheFileInfo → ℕ)
    (f : CacheFileInfo) (l : List CacheFileInfo) :
    insertByMtime (setReaders g f) (l.map (setReaders g))
      = (insertByMtime f l).map (setReaders g) := by
  induction l with
  | nil => rfl
  | cons h hs ih =>
    by_cases hle : f.mtime ≤ h.mtime
    · simp [insertByMtime, setReaders, hle]
    · simp [insertByMtime, setReaders, hle] at ih ⊢
      exact ih

theorem sortByMtime_map_setReaders (g : CacheFileInfo → ℕ)
    (l : List CacheFileInfo) :
    sortByMtime (l.map (setReaders g)) = (sortByMtime l).map (setReaders g) := by
  induction l with
  | nil => rfl
  | cons f fs ih =>
    simp only [sortByMtime, List.map_cons, List.foldr_cons] at ih ⊢
    rw [ih, insertByMtime_map_setReaders]

theorem cleanupLoop_map_setReaders (mx : ℕ) (g : CacheFileInfo → ℕ)
    (l : List CacheFileInfo) :
    ∀ sz : ℤ, cleanupLoop mx (l.map (setReaders g)) sz = cleanupLoop mx l sz := by
  induction l with
  | nil => intro sz; rfl
  | cons f fs ih =>
    intro sz
    by_cases hstop : 5 * sz ≤ 4 * (mx : ℤ)
    · simp [cleanupLoop, hstop]
    · by_cases hok : f.unlinkOk
      · simp [cleanupLoop, hstop, setReaders, hok, ih]
      · simp [cleanupLoop, hstop, setReaders, hok, ih]

/-- C7 counterexample: eviction and read sessions do not interact.  With the
budget exceeded, the sweep deletes the oldest-modified entry although it has
an active `read_cached_file` session (`readers = 1`). -/
theorem C7_counterexample :
    (cleanup_cache 1000 [evBeingRead, evIdle]).1 = [0] ∧
    evBeingRead.readers = 1 := by decide

/-- C7 amended: `cleanup_cache` keeps no reference counts and never consults
read sessions — the set of deleted entries is identical whatever the number
of active `read_cached_file` sessions on each entry, so an entry currently
being read is deleted exactly as if it were idle. -/
theorem C7_sweep_ignores_readers (mx : ℕ) (files : List CacheFileInfo)
    (g : CacheFileInfo → ℕ) :
    (cleanup_cache mx (files.map (setReaders g))).1
      = (cleanup_cache mx files).1 := by
  have hsz : (files.map (setReaders g)).map (fun f => f.size)
      = files.map (fun f => f.size) := by
    simp only [List.map_map]
    rfl
  simp only [cleanup_cache, hsz]
  by_cases hover : (mx : ℤ) < (((files.map (fun f => f.size)).sum : ℕ) : ℤ)
  · rw [if_pos hover, if_pos hover,
      sortByMtime_map_setReaders, cleanupLoop_map_setReaders]
  · rw [if_neg hover, if_neg hover]
